import Mathlib

/-!
Verification development for the libot library, a typed client for the
Lichess bot API.  The Rust source is shallowly embedded: pure functions
become Lean functions, the streaming dispatch loops become functions from
the list of stream records to the list of emitted callback invocations,
panics become `Option.none` / `Except.error`, and Rust strings are
modelled by `String` (or `List Char` where structural reasoning on the
characters is needed).  Machine integers (`i64`, `i32`) are modelled by
`Int`; none of the embedded code performs arithmetic that could overflow.
-/

namespace Libot

/-- Type alias from `src/model/game/mod.rs`: `pub type GameId = String`. -/
abbrev GameId := String

/-- Type alias from `src/model/game/mod.rs`: `pub type TournamentId = String`. -/
abbrev TournamentId := String

/-- Type alias from `src/model/user.rs`: `pub type UserId = String`. -/
abbrev UserId := String

/-- Type alias from `src/model/mod.rs`: `pub type Milliseconds = i64`. -/
abbrev Milliseconds := Int

/-- Type alias from `src/model/mod.rs`: `pub type Seconds = i32`. -/
abbrev Seconds := Int

/-- Type alias from `src/model/mod.rs`: `pub type Timestamp = i64`. -/
abbrev Timestamp := Int

/-- Type alias from `src/model/user.rs`: `pub type Rating = i32`. -/
abbrev Rating := Int

/-- Type alias from `src/model/user.rs`: `pub type AiLevel = i32`. -/
abbrev AiLevel := Int

/-- Type alias from `src/model/game/mod.rs`: `pub type Fen = String`. -/
abbrev Fen := String

/-- Enum `Color` from `src/model/game/mod.rs`. -/
inductive Color where
  | White
  | Black
deriving DecidableEq, Repr

/-- Enum `GameStatus` from `src/model/game/mod.rs`. -/
inductive GameStatus where
  | Created
  | Started
  | Aborted
  | Mate
  | Resign
  | Stalemate
  | Timeout
  | Draw
  | OutOfTime
  | Cheat
  | NoStart
  | UnknownFinish
  | VariantEnd
deriving DecidableEq, Repr

/-- Enum `Variant` from `src/model/game/mod.rs` (wire representation is an
object tagged by a `key` field). -/
inductive Variant where
  | Standard
  | Chess960
  | Crazyhouse
  | Antichess
  | Atomic
  | Horde
  | KingOfTheHill
  | RacingKings
  | ThreeCheck
  | FromPosition
deriving DecidableEq, Repr

/-- Enum `Speed` from `src/model/game/mod.rs`. -/
inductive Speed where
  | UltraBullet
  | Bullet
  | Blitz
  | Rapid
  | Classical
  | Correspondence
deriving DecidableEq, Repr

/-- Enum `Title` from `src/model/user.rs`. -/
inductive Title where
  | Gm
  | Wgm
  | Im
  | Wim
  | Fm
  | Wfm
  | Nm
  | Wnm
  | Cm
  | Wcm
  | Lm
  | Bot
deriving DecidableEq, Repr

/-- Struct `Clock` from `src/model/game/mod.rs`. -/
structure Clock where
  limit : Option Seconds
  increment : Option Seconds
deriving DecidableEq, Repr

/-- Struct `GamePerf` from `src/model/game/mod.rs`. -/
structure GamePerf where
  name : Option String
deriving DecidableEq, Repr

/-- Struct `GameEventPlayer` from `src/model/game/event.rs`. -/
structure GameEventPlayer where
  ai_level : Option AiLevel
  id : Option UserId
  name : Option String
  title : Option Title
  rating : Option Rating
  provisional : Option Bool
deriving DecidableEq, Repr

/-- Struct `GameInfo` from `src/model/game/mod.rs`. -/
structure GameInfo where
  id : GameId
  variant : Option Variant
  clock : Option Clock
  speed : Speed
  perf : GamePerf
  rated : Bool
  created_at : Timestamp
  white : GameEventPlayer
  black : GameEventPlayer
  initial_fen : Fen
  tournament_id : Option TournamentId
deriving DecidableEq, Repr

/-- Struct `GameStateEvent` from `src/model/game/event.rs`. -/
structure GameStateEvent where
  moves : String
  white_time : Milliseconds
  black_time : Milliseconds
  white_increment : Milliseconds
  black_increment : Milliseconds
  status : GameStatus
  winner : Option Color
  white_draw_offer : Bool
  black_draw_offer : Bool
  white_take_back_proposal : Bool
  black_take_back_proposal : Bool
deriving DecidableEq, Repr

/-- Struct `GameFullEvent` from `src/model/game/event.rs`: the flattened
`GameInfo` plus the first `GameState` snapshot. -/
structure GameFullEvent where
  info : GameInfo
  state : GameStateEvent
deriving DecidableEq, Repr

/-- Enum `ChatRoom` from `src/model/game/chat.rs`. -/
inductive ChatRoom where
  | Player
  | Spectator
deriving DecidableEq, Repr

/-- Struct `ChatLine` from `src/model/game/chat.rs`. -/
structure ChatLine where
  username : String
  text : String
deriving DecidableEq, Repr

/-- Struct `ChatLineEvent` from `src/model/game/event.rs`. -/
structure ChatLineEvent where
  room : ChatRoom
  chat_line : ChatLine
deriving DecidableEq, Repr

/-- Struct `OpponentGoneEvent` from `src/model/game/event.rs`. -/
structure OpponentGoneEvent where
  gone : Bool
  claim_win_in_seconds : Option Seconds
deriving DecidableEq, Repr

/-- Enum `GameEvent` from `src/model/game/event.rs`: the per-game stream
record type, tagged on the wire by a `type` field. -/
inductive GameEvent where
  | GameFull (event : GameFullEvent)
  | GameState (event : GameStateEvent)
  | ChatLine (event : ChatLineEvent)
  | OpponentGone (event : OpponentGoneEvent)
deriving DecidableEq, Repr

/-- Struct `BotContext` from `src/context.rs`. -/
structure BotContext where
  bot_id : UserId
deriving DecidableEq, Repr

/-- Struct `GameContext` from `src/context.rs`. -/
structure GameContext where
  bot_id : UserId
  bot_color : Option Color
  info : GameInfo
deriving DecidableEq, Repr

/-- Function `color_of` from `src/lib.rs` lines 65-78.  Rust's
`game_info.white.id.iter().any(|white| white == user_id)` on an
`Option<UserId>` is `Option.any` on the embedded option. -/
def color_of (user_id : UserId) (game_info : GameInfo) : Option Color :=
  let is_white := game_info.white.id.any (fun white => white == user_id)
  let is_black := game_info.black.id.any (fun black => black == user_id)
  if is_white then
    some Color.White
  else if is_black then
    some Color.Black
  else
    none

/-- Enum `GameEventSource` from `src/model/game/event.rs`. -/
inductive GameEventSource where
  | Lobby
  | Friend
  | Ai
  | Api
  | Tournament
  | Position
  | Import
  | ImportLive
  | Simul
  | Relay
  | Pool
  | Swiss
deriving DecidableEq, Repr

/-- Struct `Compat` from `src/model/mod.rs`. -/
structure Compat where
  bot : Option Bool
  board : Option Bool
deriving DecidableEq, Repr

/-- Enum `TimeControl` from `src/model/mod.rs`. -/
inductive TimeControl where
  | Clock (clock : Libot.Clock)
  | Correspondence (days_per_turn : Option Int)
  | Unlimited
deriving DecidableEq, Repr

/-- Struct `User` from `src/model/user.rs` (the `provisional`, `online` and
`patron` flags carry `#[serde(default)]` and are plain booleans). -/
structure User where
  rating : Option Rating
  provisional : Bool
  online : Bool
  id : UserId
  name : String
  title : Option Title
  patron : Bool
deriving DecidableEq, Repr

/-- Enum `ChallengeStatus` from `src/model/challenge.rs`. -/
inductive ChallengeStatus where
  | Created
  | Offline
  | Canceled
  | Declined
  | Accepted
deriving DecidableEq, Repr

/-- Enum `ChallengeColor` from `src/model/challenge.rs`. -/
inductive ChallengeColor where
  | White
  | Black
  | Random
deriving DecidableEq, Repr

/-- Struct `ChallengePerf` from `src/model/challenge.rs`. -/
structure ChallengePerf where
  icon : Option String
  name : Option String
deriving DecidableEq, Repr

/-- Enum `ChallengeDirection` from `src/model/challenge.rs`. -/
inductive ChallengeDirection where
  | In
  | Out
deriving DecidableEq, Repr

/-- Enum `DeclineReason` from `src/model/challenge.rs`: the typed reasons a
bot can give for declining a challenge. -/
inductive DeclineReason where
  | Generic
  | Later
  | TooFast
  | TooSlow
  | TimeControl
  | Rated
  | Casual
  | Standard
  | Variant
  | NoBot
  | OnlyBot
deriving DecidableEq, Repr

/-- Struct `Challenge` from `src/model/challenge.rs`.  The struct
`ChallengeEvent` in `src/model/bot_event.rs` is field-for-field identical
to it, so a single embedded structure serves for both. -/
structure Challenge where
  id : GameId
  url : String
  status : ChallengeStatus
  challenger : User
  dest_user : Option User
  variant : Option Variant
  rated : Bool
  speed : Speed
  time_control : TimeControl
  color : ChallengeColor
  perf : ChallengePerf
  direction : Option ChallengeDirection
  initial_fen : Option Fen
  decline_reason : Option String
  decline_reason_key : Option DeclineReason
deriving DecidableEq, Repr

/-- Struct `ChallengeDeclined` from `src/model/challenge.rs` (identical to
`ChallengeDeclinedEvent` in `src/model/bot_event.rs`). -/
structure ChallengeDeclined where
  id : GameId
deriving DecidableEq, Repr

/-- Struct `GameStartFinishEvent` from `src/model/bot_event.rs` (referred
to as `GameStartFinish` at its use sites in `src/lib.rs`). -/
structure GameStartFinish where
  id : Option GameId
  source : Option GameEventSource
  status : Option GameStatus
  winner : Option Color
  compat : Option Compat
deriving DecidableEq, Repr

/-- Enum `BotEvent` from `src/model/bot_event.rs`: the top-level stream
record type, tagged on the wire by a `type` field. -/
inductive BotEvent where
  | GameStart (game : GameStartFinish)
  | GameFinish (game : GameStartFinish)
  | Challenge (challenge : Libot.Challenge)
  | ChallengeCanceled (challenge : Libot.Challenge)
  | ChallengeDeclined (challenge : Libot.ChallengeDeclined)
deriving DecidableEq, Repr

/-- Reification of a per-game `Bot` trait callback invocation
(`src/lib.rs` lines 49-56): one constructor per game-event method, each
recording the `GameContext` and the decoded event that were passed to the
handler.  The run loop is embedded as a function that returns the list of
such invocations instead of executing side effects. -/
inductive GameCallback where
  | on_game_state (context : GameContext) (state : GameStateEvent)
  | on_chat_line (context : GameContext) (chat_line : ChatLineEvent)
  | on_opponent_gone (context : GameContext) (opponent_gone : OpponentGoneEvent)
deriving DecidableEq, Repr

/-- Projection returning the `GameContext` a reified game callback carried. -/
def GameCallback.context : GameCallback → GameContext
  | GameCallback.on_game_state context _ => context
  | GameCallback.on_chat_line context _ => context
  | GameCallback.on_opponent_gone context _ => context

/-- Function `process_game_event` from `src/lib.rs` lines 80-92.  A
`GameFull` record at this point hits the `panic!()` branch, modelled as
`none`; the other variants invoke the matching `Bot` callback, modelled as
the corresponding reified invocation. -/
def process_game_event (event : GameEvent) (game_context : GameContext) :
    Option GameCallback :=
  match event with
  | GameEvent.GameFull _ => none
  | GameEvent.GameState state =>
      some (GameCallback.on_game_state game_context state)
  | GameEvent.ChatLine chat_line =>
      some (GameCallback.on_chat_line game_context chat_line)
  | GameEvent.OpponentGone opponent_gone =>
      some (GameCallback.on_opponent_gone game_context opponent_gone)

/-- Tail of the per-game loop in `run_with_game_event_stream`
(`src/lib.rs` lines 120-129): each remaining record is unwrapped
(`record.unwrap()`, panicking on a decode error, modelled as `none`) and
dispatched through `process_game_event` in its own spawned task; a panic in
any task propagates through `join_handle.await.unwrap()` and aborts the
loop, so the whole run yields `none` as soon as any record fails.  In this
sequential embedding the callback list is in stream order; the code makes
no ordering guarantee between spawned handlers, and none of the verified
properties depend on one. -/
def dispatch_game_events (game_context : GameContext) {E : Type} :
    List (Except E GameEvent) → Option (List GameCallback)
  | [] => some []
  | record :: rest =>
      match record with
      | Except.error _ => none
      | Except.ok event =>
          match process_game_event event game_context with
          | none => none
          | some callback =>
              (dispatch_game_events game_context rest).map
                (fun callbacks => callback :: callbacks)

/-- Function `run_with_game_event_stream` from `src/lib.rs` lines 94-130.
The stream is embedded as the list of its records.  The first record must
be `Ok(GameFull)`: from it the `GameContext` is derived (bot color via
`color_of`) and the embedded initial state is dispatched to
`on_game_state`; an empty stream returns without callbacks; any other
first record hits the `panic!()` branch, modelled as `none`.  The
remaining records are handled by `dispatch_game_events`. -/
def run_with_game_event_stream {E : Type}
    (event_stream : List (Except E GameEvent)) (bot_id : UserId) :
    Option (List GameCallback) :=
  match event_stream with
  | [] => some []
  | first :: rest =>
      match first with
      | Except.ok (GameEvent.GameFull game_full) =>
          let bot_color := color_of bot_id game_full.info
          let game_context : GameContext :=
            { bot_id := bot_id, bot_color := bot_color, info := game_full.info }
          (dispatch_game_events game_context rest).map
            (fun callbacks =>
              GameCallback.on_game_state game_context game_full.state :: callbacks)
      | _ => none

/-- Reification of a top-level `Bot` trait callback invocation
(`src/lib.rs` lines 34-47): one constructor per bot-event method,
recording the shared `BotContext` and the decoded event. -/
inductive BotCallback where
  | on_game_start (context : BotContext) (game : GameStartFinish)
  | on_game_finish (context : BotContext) (game : GameStartFinish)
  | on_challenge (context : BotContext) (challenge : Challenge)
  | on_challenge_cancelled (context : BotContext) (challenge : Challenge)
  | on_challenge_declined (context : BotContext) (challenge : ChallengeDeclined)
deriving DecidableEq, Repr

/-- Reconstruction of the `BotEvent` a reified top-level callback
delivered (exactly the pushback performed by the mock bot in the
repository's own tests). -/
def BotCallback.event : BotCallback → BotEvent
  | BotCallback.on_game_start _ game => BotEvent.GameStart game
  | BotCallback.on_game_finish _ game => BotEvent.GameFinish game
  | BotCallback.on_challenge _ challenge => BotEvent.Challenge challenge
  | BotCallback.on_challenge_cancelled _ challenge => BotEvent.ChallengeCanceled challenge
  | BotCallback.on_challenge_declined _ challenge => BotEvent.ChallengeDeclined challenge

/-- Function `process_bot_event` from `src/lib.rs` lines 132-162,
restricted to its top-level dispatch: every decoded `BotEvent` invokes
exactly one matching `Bot` callback.  (For a `GameStart` with an id the
task afterwards opens the per-game stream and runs
`run_with_game_event_stream`; that nested loop delivers per-game
callbacks, not top-level ones, and is verified separately.) -/
def process_bot_event (event : BotEvent) (context : BotContext) : BotCallback :=
  match event with
  | BotEvent.GameStart game => BotCallback.on_game_start context game
  | BotEvent.GameFinish game => BotCallback.on_game_finish context game
  | BotEvent.Challenge challenge => BotCallback.on_challenge context challenge
  | BotEvent.ChallengeCanceled challenge =>
      BotCallback.on_challenge_cancelled context challenge
  | BotEvent.ChallengeDeclined challenge =>
      BotCallback.on_challenge_declined context challenge

/-- Loop body of `run_with_event_stream` from `src/lib.rs` lines 173-181:
each record is unwrapped (`record.unwrap()`, panicking on a decode error,
modelled as `none`) and dispatched in its own spawned task, a panic in any
task aborting the loop through `join_handle.await.unwrap()`.  As with the
per-game loop, the sequential embedding lists callbacks in stream order. -/
def dispatch_bot_events (context : BotContext) {E : Type} :
    List (Except E BotEvent) → Option (List BotCallback)
  | [] => some []
  | record :: rest =>
      match record with
      | Except.error _ => none
      | Except.ok event =>
          (dispatch_bot_events context rest).map
            (fun callbacks => process_bot_event event context :: callbacks)

/-- Entry point of the top-level loop in `src/lib.rs` lines 164-182: the
`BotContext` is created once from the bot id and shared read-only with
every dispatched record. -/
def run_with_event_stream {E : Type}
    (event_stream : List (Except E BotEvent)) (bot_id : UserId) :
    Option (List BotCallback) :=
  dispatch_bot_events { bot_id := bot_id } event_stream

/-- Enum `GameStatusError` from `src/model/game/mod.rs`. -/
inductive GameStatusError where
  | UnknownId (id : Int)
  | UnknownName (name : String)
  | IdNameMismatch (id : Int) (name : String)
deriving DecidableEq, Repr

/-- Struct `GameStatusObject` from `src/model/game/mod.rs`: the wire shape
of a game status, an object with optional numeric `id` and optional string
`name`. -/
structure GameStatusObject where
  id : Option Int
  name : Option String
deriving DecidableEq, Repr

/-- Function `game_status_from_id` from `src/model/game/mod.rs` lines
68-85: the fixed numeric-id table. -/
def game_status_from_id (id : Int) : Except GameStatusError GameStatus :=
  match id with
  | 10 => Except.ok GameStatus.Created
  | 20 => Except.ok GameStatus.Started
  | 25 => Except.ok GameStatus.Aborted
  | 30 => Except.ok GameStatus.Mate
  | 31 => Except.ok GameStatus.Resign
  | 32 => Except.ok GameStatus.Stalemate
  | 33 => Except.ok GameStatus.Timeout
  | 34 => Except.ok GameStatus.Draw
  | 35 => Except.ok GameStatus.OutOfTime
  | 36 => Except.ok GameStatus.Cheat
  | 37 => Except.ok GameStatus.NoStart
  | 38 => Except.ok GameStatus.UnknownFinish
  | 60 => Except.ok GameStatus.VariantEnd
  | _ => Except.error (GameStatusError.UnknownId id)

/-- Function `game_status_from_name` from `src/model/game/mod.rs` lines
87-104: the fixed name table. -/
def game_status_from_name (name : String) : Except GameStatusError GameStatus :=
  match name with
  | "created" => Except.ok GameStatus.Created
  | "started" => Except.ok GameStatus.Started
  | "aborted" => Except.ok GameStatus.Aborted
  | "mate" => Except.ok GameStatus.Mate
  | "resign" => Except.ok GameStatus.Resign
  | "stalemate" => Except.ok GameStatus.Stalemate
  | "timeout" => Except.ok GameStatus.Timeout
  | "draw" => Except.ok GameStatus.Draw
  | "outoftime" => Except.ok GameStatus.OutOfTime
  | "cheat" => Except.ok GameStatus.Cheat
  | "noStart" => Except.ok GameStatus.NoStart
  | "unknownFinish" => Except.ok GameStatus.UnknownFinish
  | "variantEnd" => Except.ok GameStatus.VariantEnd
  | _ => Except.error (GameStatusError.UnknownName name)

/-- Helper mirroring Rust's `Option<Result<..>>::transpose()` used in the
`TryFrom` implementation below. -/
def transpose_result {E A : Type} : Option (Except E A) → Except E (Option A)
  | none => Except.ok none
  | some (Except.ok a) => Except.ok (some a)
  | some (Except.error e) => Except.error e

/-- Implementation of `TryFrom<GameStatusObject> for Option<GameStatus>`
from `src/model/game/mod.rs` lines 106-123: resolve the optional id and
name through their tables (propagating unknown-id/unknown-name errors),
fail with `IdNameMismatch` when both are present but disagree, otherwise
combine them with `Option::or`. -/
def game_status_try_from (game_status_object : GameStatusObject) :
    Except GameStatusError (Option GameStatus) := do
  let from_id ← transpose_result (game_status_object.id.map game_status_from_id)
  let from_name ← transpose_result (game_status_object.name.map game_status_from_name)
  match from_id, from_name with
  | some status_from_id, some status_from_name =>
      if status_from_id ≠ status_from_name then
        Except.error (GameStatusError.IdNameMismatch
          game_status_object.id.get! game_status_object.name.get!)
      else
        Except.ok (from_id.or from_name)
  | _, _ => Except.ok (from_id.or from_name)

/-- Function `deserialize_game_status_from_object` from
`src/model/game/mod.rs` lines 125-137.  The serde layer first produces an
`Option<GameStatusObject>` (absent field or JSON `null` become `None`, and
`null` id/name fields inside the object become `None` fields); this
embedding starts from that already-framed value. -/
def deserialize_game_status_from_object
    (game_status_object : Option GameStatusObject) :
    Except GameStatusError (Option GameStatus) :=
  match game_status_object with
  | some game_status_object => game_status_try_from game_status_object
  | none => Except.ok none

/-- Wire table of the `key`-tagged `Variant` enum from
`src/model/game/mod.rs` (serde `tag = "key", rename_all = "camelCase"`). -/
def variant_from_key (key : String) : Option Variant :=
  match key with
  | "standard" => some Variant.Standard
  | "chess960" => some Variant.Chess960
  | "crazyhouse" => some Variant.Crazyhouse
  | "antichess" => some Variant.Antichess
  | "atomic" => some Variant.Atomic
  | "horde" => some Variant.Horde
  | "kingOfTheHill" => some Variant.KingOfTheHill
  | "racingKings" => some Variant.RacingKings
  | "threeCheck" => some Variant.ThreeCheck
  | "fromPosition" => some Variant.FromPosition
  | _ => none

/-- Variant objects on the wire are JSON objects whose fields (`key`,
`name`, `short`) carry string values; they are embedded as association
lists from field name to string value. -/
abbrev JsonObject := List (String × String)

/-- Decoding a `Variant` object as the `key`-tagged enum: serde looks up
the `key` field and maps it through the variant table, failing when the
field is missing or its value unknown. -/
def deserialize_variant_tagged (object : JsonObject) : Except String Variant :=
  match object.lookup "key" with
  | some key =>
      match variant_from_key key with
      | some variant => Except.ok variant
      | none => Except.error ("unknown variant " ++ key)
  | none => Except.error "missing field key"

/-- Function `deserialize_optional_variant` from `src/model/game/mod.rs`
lines 190-207: the untagged `VariantOrEmpty` enum first tries the
`key`-tagged `Variant` decode; if that fails, the fieldless struct variant
`Empty { }` is tried, which (serde structs ignore unknown fields by
default) accepts any object, yielding `None`. -/
def deserialize_optional_variant (object : JsonObject) :
    Except String (Option Variant) :=
  match deserialize_variant_tagged object with
  | Except.ok variant => Except.ok (some variant)
  | Except.error _ => Except.ok none

/-- Wire string of each `DeclineReason`, per the
`#[serde(rename_all = "camelCase")]` attribute in
`src/model/challenge.rs`. -/
def decline_reason_wire : DeclineReason → String
  | DeclineReason.Generic => "generic"
  | DeclineReason.Later => "later"
  | DeclineReason.TooFast => "tooFast"
  | DeclineReason.TooSlow => "tooSlow"
  | DeclineReason.TimeControl => "timeControl"
  | DeclineReason.Rated => "rated"
  | DeclineReason.Casual => "casual"
  | DeclineReason.Standard => "standard"
  | DeclineReason.Variant => "variant"
  | DeclineReason.NoBot => "noBot"
  | DeclineReason.OnlyBot => "onlyBot"

/-- Struct `DeclineRequest` from `src/model/request.rs`: the JSON body of
`POST /challenge/{id}/decline`, whose `reason` field carries
`#[serde(skip_serializing_if = "Option::is_none")]`. -/
structure DeclineRequest where
  reason : Option DeclineReason
deriving DecidableEq, Repr

/-- JSON text produced by `serde_json::to_string` for a `DeclineRequest`:
the `reason` field is skipped entirely when `None`, otherwise it is the
wire string of the reason. -/
def serialize_decline_request (request : DeclineRequest) : String :=
  match request.reason with
  | none => "\x7b\x7d"
  | some reason =>
      "\x7b\"reason\":\"" ++ decline_reason_wire reason ++ "\"\x7d"

/-- Function `join_url` from `src/client.rs` lines 26-39, with the Rust
`String` modelled as its list of characters: if the base URL ends with a
slash it is popped (`String::pop` removes exactly the last character,
mirrored by `List.dropLast`), if the path does not start with a slash one
is pushed, and the path is appended. -/
def join_url (base_url path : List Char) : List Char :=
  let url := if base_url.getLast? = some '/' then base_url.dropLast else base_url
  let url := if ¬ path.head? = some '/' then url ++ ['/'] else url
  url ++ path

/-- Specification-side helper: a string with every trailing slash
removed.  Used to state the "exactly one slash between base and path"
property of `join_url`. -/
def drop_trailing_slashes (s : List Char) : List Char :=
  (s.reverse.dropWhile (fun c => c = '/')).reverse

/-- Specification-side helper: a string with every leading slash
removed. -/
def drop_leading_slashes (s : List Char) : List Char :=
  s.dropWhile (fun c => c = '/')

/-- Enum `BotClientBuilderError` from `src/error.rs` (the payloads of
`InvalidToken` and `ClientError` carry foreign error values and are
dropped in the embedding). -/
inductive BotClientBuilderError where
  | NoToken
  | InvalidToken
  | ClientError
deriving DecidableEq, Repr

/-- Struct `BotClient` from `src/client.rs`: the `reqwest::Client` is
represented by the one observable the builder installs into it, the
default `Authorization` header value. -/
structure BotClient where
  authorization : String
  base_url : String
deriving DecidableEq, Repr

/-- Constant `DEFAULT_BASE_URL` from `src/client.rs` line 269. -/
def DEFAULT_BASE_URL : String := "https://lichess.org/api"

/-- Struct `BotClientBuilder` from `src/client.rs` lines 272-276. -/
structure BotClientBuilder where
  token : Option String
  base_url : String
deriving DecidableEq, Repr

/-- Function `BotClientBuilder::new` from `src/client.rs` lines 282-287. -/
def BotClientBuilder.new : BotClientBuilder :=
  { token := none, base_url := DEFAULT_BASE_URL }

/-- Function `BotClientBuilder::with_token` from `src/client.rs`. -/
def BotClientBuilder.with_token (builder : BotClientBuilder) (token : String) :
    BotClientBuilder :=
  { builder with token := some token }

/-- Function `BotClientBuilder::with_base_url` from `src/client.rs`. -/
def BotClientBuilder.with_base_url (builder : BotClientBuilder) (base_url : String) :
    BotClientBuilder :=
  { builder with base_url := base_url }

/-- Validity of one character of an HTTP header value, per
`http::HeaderValue::from_str` (invoked by the `parse()` call in
`BotClientBuilder::build`): a byte is legal iff it is horizontal tab or at
least 32 and not DEL (127).  Bytes of multi-byte UTF-8 characters are all
at least 0x80, so per-character validity coincides with per-byte
validity. -/
def is_valid_header_value_char (c : Char) : Bool :=
  c = '\t' ∨ (32 ≤ c.toNat ∧ c.toNat ≠ 127)

/-- Function `BotClientBuilder::build` from `src/client.rs` lines 312-327:
without a token, fail with `NoToken` before constructing anything;
otherwise parse `"Bearer {token}"` into a header value (failing with
`InvalidToken` on an illegal byte) and build the client with that default
header and the configured base URL.  The `reqwest::ClientBuilder::build`
transport construction (`ClientError` case) depends only on the host
environment and is modelled as succeeding. -/
def BotClientBuilder.build (builder : BotClientBuilder) :
    Except BotClientBuilderError BotClient :=
  match builder.token with
  | some token =>
      let authorization_value := "Bearer " ++ token
      if authorization_value.toList.all is_valid_header_value_char then
        Except.ok { authorization := authorization_value, base_url := builder.base_url }
      else
        Except.error BotClientBuilderError.InvalidToken
  | none => Except.error BotClientBuilderError.NoToken

/-- Test fixture: a game with distinct white and black seat ids, as in the
repository's own tests. -/
def test_game_info : GameInfo :=
  { id := "testGameId"
    variant := some Variant.Standard
    clock := none
    speed := Speed.Bullet
    perf := { name := none }
    rated := false
    created_at := 0
    white :=
      { ai_level := none, id := some "testWhiteId", name := none, title := none,
        rating := none, provisional := none }
    black :=
      { ai_level := none, id := some "testBlackId", name := none, title := none,
        rating := none, provisional := none }
    initial_fen := "testInitialFen"
    tournament_id := none }

/-- Test fixture: an initial game state snapshot. -/
def test_game_state : GameStateEvent :=
  { moves := ""
    white_time := 120000
    black_time := 120000
    white_increment := 0
    black_increment := 0
    status := GameStatus.Created
    winner := none
    white_draw_offer := false
    black_draw_offer := false
    white_take_back_proposal := false
    black_take_back_proposal := false }

/-- Test fixture: the full first record of a per-game stream. -/
def test_game_full : GameFullEvent :=
  { info := test_game_info, state := test_game_state }

/-- Closed form of `color_of`: the white seat is compared first, then the
black seat. -/
theorem color_of_eq (user_id : UserId) (game_info : GameInfo) :
    color_of user_id game_info =
      if game_info.white.id = some user_id then some Color.White
      else if game_info.black.id = some user_id then some Color.Black
      else none := by
  unfold color_of
  cases hw : game_info.white.id <;> cases hb : game_info.black.id <;>
    simp [Option.any, beq_iff_eq] <;>
    (try split_ifs) <;> simp_all

/-- C7: for every bot user id and game info, `color_of` returns
`Some(White)` when the white seat's id equals the bot id, `Some(Black)`
when the black seat's id equals the bot id (the seats being examined in
that order, so this case applies when the white seat does not match), and
`None` when neither seat's id matches — including when a seat has no id at
all, since an absent id never equals the bot id. -/
theorem color_of_spec (user_id : UserId) (game_info : GameInfo) :
    (game_info.white.id = some user_id →
      color_of user_id game_info = some Color.White) ∧
    (game_info.white.id ≠ some user_id → game_info.black.id = some user_id →
      color_of user_id game_info = some Color.Black) ∧
    (game_info.white.id ≠ some user_id → game_info.black.id ≠ some user_id →
      color_of user_id game_info = none) := by
  refine ⟨fun hw => ?_, fun hw hb => ?_, fun hw hb => ?_⟩ <;>
    rw [color_of_eq] <;> simp [*]

/-- Witness for C7: in the fixture game, the bot playing as the black
seat's user is assigned `Some(Black)`. -/
theorem color_of_spec_witness :
    color_of "testBlackId" test_game_info = some Color.Black :=
  (color_of_spec "testBlackId" test_game_info).2.1 (by decide) (by decide)

/-- C10: when both seats carry the bot's own user id, the white-seat
comparison wins and `color_of` returns `Some(White)`. -/
theorem color_of_white_precedence (user_id : UserId) (game_info : GameInfo)
    (hw : game_info.white.id = some user_id)
    (hb : game_info.black.id = some user_id) :
    color_of user_id game_info = some Color.White := by
  rw [color_of_eq]
  simp [hw]

/-- Witness for C10: a game whose two seats both carry the bot's id is
reported as White. -/
theorem color_of_white_precedence_witness :
    color_of "testBotId"
      { test_game_info with
        white := { test_game_info.white with id := some "testBotId" }
        black := { test_game_info.black with id := some "testBotId" } } =
      some Color.White :=
  color_of_white_precedence "testBotId" _ (by decide) (by decide)

/-- C8: serializing a `DeclineRequest` with reason `None` yields exactly
the empty JSON object (the field is omitted entirely), and with a present
reason yields exactly the object with that reason's wire string — spelled
out for `Generic` as the claim requires and for every other reason. -/
theorem decline_request_serialization_spec :
    serialize_decline_request { reason := none } = "\x7b\x7d" ∧
    serialize_decline_request { reason := some DeclineReason.Generic } =
      "\x7b\"reason\":\"generic\"\x7d" ∧
    serialize_decline_request { reason := some DeclineReason.Later } =
      "\x7b\"reason\":\"later\"\x7d" ∧
    serialize_decline_request { reason := some DeclineReason.TooFast } =
      "\x7b\"reason\":\"tooFast\"\x7d" ∧
    serialize_decline_request { reason := some DeclineReason.TooSlow } =
      "\x7b\"reason\":\"tooSlow\"\x7d" ∧
    serialize_decline_request { reason := some DeclineReason.TimeControl } =
      "\x7b\"reason\":\"timeControl\"\x7d" ∧
    serialize_decline_request { reason := some DeclineReason.Rated } =
      "\x7b\"reason\":\"rated\"\x7d" ∧
    serialize_decline_request { reason := some DeclineReason.Casual } =
      "\x7b\"reason\":\"casual\"\x7d" ∧
    serialize_decline_request { reason := some DeclineReason.Standard } =
      "\x7b\"reason\":\"standard\"\x7d" ∧
    serialize_decline_request { reason := some DeclineReason.Variant } =
      "\x7b\"reason\":\"variant\"\x7d" ∧
    serialize_decline_request { reason := some DeclineReason.NoBot } =
      "\x7b\"reason\":\"noBot\"\x7d" ∧
    serialize_decline_request { reason := some DeclineReason.OnlyBot } =
      "\x7b\"reason\":\"onlyBot\"\x7d" := by
  refine ⟨rfl, rfl, rfl, rfl, rfl, rfl, rfl, rfl, rfl, rfl, rfl, rfl⟩

/-- Definitional reduction of an `Except.ok` bind, used to step through
the embedded do-notation. -/
theorem except_ok_bind {E A B : Type} (a : A) (f : A → Except E B) :
    (Except.ok a : Except E A) >>= f = f a := rfl

/-- C3: the game-status decoder resolves the optional id and name through
the two fixed tables — `\x7bid:10\x7d`, `\x7bname:created\x7d` and their
combination all give `Created`; a present id and name resolving to
different statuses fail with `IdNameMismatch`; an unknown id or name
fails with the corresponding error; a single present field is used alone
(stated generally); and an absent object, or an object with both fields
absent, decodes to `None` without error. -/
theorem game_status_decode_spec :
    deserialize_game_status_from_object
      (some { id := some 10, name := none }) = Except.ok (some GameStatus.Created) ∧
    deserialize_game_status_from_object
      (some { id := none, name := some "created" }) =
        Except.ok (some GameStatus.Created) ∧
    deserialize_game_status_from_object
      (some { id := some 10, name := some "created" }) =
        Except.ok (some GameStatus.Created) ∧
    deserialize_game_status_from_object
      (some { id := some 10, name := some "aborted" }) =
        Except.error (GameStatusError.IdNameMismatch 10 "aborted") ∧
    deserialize_game_status_from_object
      (some { id := some 5, name := none }) =
        Except.error (GameStatusError.UnknownId 5) ∧
    deserialize_game_status_from_object
      (some { id := none, name := some "help" }) =
        Except.error (GameStatusError.UnknownName "help") ∧
    deserialize_game_status_from_object none = Except.ok none ∧
    deserialize_game_status_from_object
      (some { id := none, name := none }) = Except.ok none ∧
    (∀ (id : Int) (name : String) (status_from_id status_from_name : GameStatus),
      game_status_from_id id = Except.ok status_from_id →
      game_status_from_name name = Except.ok status_from_name →
      status_from_id ≠ status_from_name →
      deserialize_game_status_from_object (some { id := some id, name := some name }) =
        Except.error (GameStatusError.IdNameMismatch id name)) ∧
    (∀ (id : Int) (status : GameStatus),
      game_status_from_id id = Except.ok status →
      deserialize_game_status_from_object (some { id := some id, name := none }) =
        Except.ok (some status)) ∧
    (∀ (name : String) (status : GameStatus),
      game_status_from_name name = Except.ok status →
      deserialize_game_status_from_object (some { id := none, name := some name }) =
        Except.ok (some status)) := by
  refine ⟨rfl, rfl, rfl, rfl, rfl, rfl, rfl, rfl, ?_, ?_, ?_⟩
  · intro id name status_from_id status_from_name hid hname hne
    have h1 : transpose_result ((some id).map game_status_from_id) =
        Except.ok (some status_from_id) := by simp [transpose_result, hid]
    have h2 : transpose_result ((some name).map game_status_from_name) =
        Except.ok (some status_from_name) := by simp [transpose_result, hname]
    simp only [deserialize_game_status_from_object, game_status_try_from, h1, h2,
      except_ok_bind]
    simp [hne]
  · intro id status hid
    have h1 : transpose_result ((some id).map game_status_from_id) =
        Except.ok (some status) := by simp [transpose_result, hid]
    simp only [deserialize_game_status_from_object, game_status_try_from, h1,
      except_ok_bind]
    rfl
  · intro name status hname
    have h2 : transpose_result ((some name).map game_status_from_name) =
        Except.ok (some status) := by simp [transpose_result, hname]
    simp only [deserialize_game_status_from_object, game_status_try_from, h2,
      except_ok_bind]
    rfl

/-- Witness for C3: the general single-field rules applied at id 20 and
name "started". -/
theorem game_status_decode_spec_witness :
    deserialize_game_status_from_object (some { id := some 20, name := none }) =
      Except.ok (some GameStatus.Started) ∧
    deserialize_game_status_from_object (some { id := none, name := some "started" }) =
      Except.ok (some GameStatus.Started) :=
  ⟨game_status_decode_spec.2.2.2.2.2.2.2.2.2.1 20 GameStatus.Started rfl,
    game_status_decode_spec.2.2.2.2.2.2.2.2.2.2 "started" GameStatus.Started rfl⟩

/-- C4: the optional-variant decoder first attempts the `key`-tagged
enum decode (stated generally: whenever the tagged decode succeeds its
result is returned as `Some`), so an object with key `chess960` yields
`Some(Chess960)`; when the object has no `key` the fallback yields `None`
instead of an error, so the empty object decodes to `None`. -/
theorem optional_variant_decode_spec :
    deserialize_optional_variant [("key", "chess960")] =
      Except.ok (some Variant.Chess960) ∧
    deserialize_optional_variant [] = Except.ok none ∧
    (∀ (object : JsonObject) (variant : Variant),
      deserialize_variant_tagged object = Except.ok variant →
      deserialize_optional_variant object = Except.ok (some variant)) ∧
    (∀ object : JsonObject, object.lookup "key" = none →
      deserialize_optional_variant object = Except.ok none) := by
  refine ⟨rfl, rfl, ?_, ?_⟩
  · intro object variant h
    simp [deserialize_optional_variant, h]
  · intro object h
    simp [deserialize_optional_variant, deserialize_variant_tagged, h]

/-- Witness for C4: the general tagged-first rule applied at the
crazyhouse variant object. -/
theorem optional_variant_decode_spec_witness :
    deserialize_optional_variant [("key", "crazyhouse"), ("name", "Crazyhouse")] =
      Except.ok (some Variant.Crazyhouse) :=
  optional_variant_decode_spec.2.2.1 [("key", "crazyhouse"), ("name", "Crazyhouse")]
    Variant.Crazyhouse rfl

/-- C9: `build` fails with `NoToken` exactly when the builder holds no
token (so no client is constructed without `with_token`); a token whose
bytes are not a legal header value — such as one containing a NUL byte —
fails with `InvalidToken`; and a legal token yields a client whose base
URL is the configured one, defaulting to `DEFAULT_BASE_URL`
(`https://lichess.org/api`) when `with_base_url` was not called. -/
theorem bot_client_builder_build_spec :
    (∀ builder : BotClientBuilder,
      builder.build = Except.error BotClientBuilderError.NoToken ↔
        builder.token = none) ∧
    (BotClientBuilder.new.with_token "\x00").build =
      Except.error BotClientBuilderError.InvalidToken ∧
    (∀ token : String,
      (∃ c ∈ token.toList, is_valid_header_value_char c = false) →
      (BotClientBuilder.new.with_token token).build =
        Except.error BotClientBuilderError.InvalidToken) ∧
    (∀ token base_url : String,
      token.toList.all is_valid_header_value_char = true →
      ((BotClientBuilder.new.with_token token).with_base_url base_url).build =
        Except.ok { authorization := "Bearer " ++ token, base_url := base_url }) ∧
    (∀ token : String,
      token.toList.all is_valid_header_value_char = true →
      (BotClientBuilder.new.with_token token).build =
        Except.ok { authorization := "Bearer " ++ token,
                    base_url := DEFAULT_BASE_URL }) := by
  have hbearer : ∀ token : String,
      ("Bearer " ++ token).toList = "Bearer ".toList ++ token.toList := by
    intro token
    simp [String.toList, String.data_append]
  have hB : "Bearer ".toList.all is_valid_header_value_char = true := by decide
  refine ⟨?_, rfl, ?_, ?_, ?_⟩
  · intro builder
    cases h : builder.token <;>
      simp [BotClientBuilder.build, h] <;> split <;> simp
  · intro token h
    obtain ⟨c, hc, hinvalid⟩ := h
    have htok : token.toList.all is_valid_header_value_char = false := by
      rw [List.all_eq_false]
      exact ⟨c, hc, by simp [hinvalid]⟩
    have hall : ("Bearer " ++ token).toList.all is_valid_header_value_char = false := by
      rw [hbearer, List.all_append, hB, htok]
      rfl
    simp only [BotClientBuilder.build, BotClientBuilder.new,
      BotClientBuilder.with_token, hall]
    simp
  · intro token base_url h
    have hall : ("Bearer " ++ token).toList.all is_valid_header_value_char = true := by
      rw [hbearer, List.all_append, hB, h]
      rfl
    simp only [BotClientBuilder.build, BotClientBuilder.new,
      BotClientBuilder.with_token, BotClientBuilder.with_base_url, hall]
    simp
  · intro token h
    have hall : ("Bearer " ++ token).toList.all is_valid_header_value_char = true := by
      rw [hbearer, List.all_append, hB, h]
      rfl
    simp only [BotClientBuilder.build, BotClientBuilder.new,
      BotClientBuilder.with_token, hall]
    simp

/-- Witness for C9: a well-formed token builds a client against the
default base URL, and overriding the base URL is respected. -/
theorem bot_client_builder_build_spec_witness :
    (BotClientBuilder.new.with_token "abc123").build =
      Except.ok { authorization := "Bearer " ++ "abc123",
                  base_url := DEFAULT_BASE_URL } ∧
    ((BotClientBuilder.new.with_token "abc123").with_base_url
        "https://base.url/path").build =
      Except.ok { authorization := "Bearer " ++ "abc123",
                  base_url := "https://base.url/path" } :=
  ⟨bot_client_builder_build_spec.2.2.2.2 "abc123" (by decide),
    bot_client_builder_build_spec.2.2.2.1 "abc123" "https://base.url/path" (by decide)⟩

/-- Helper: `dropWhile` keeps a list whole when its head (if any) fails
the predicate. -/
theorem dropWhile_head_false {α : Type} (p : α → Bool) (l : List α)
    (h : ∀ a, l.head? = some a → p a = false) : l.dropWhile p = l := by
  cases l with
  | nil => rfl
  | cons a as => simp [List.dropWhile_cons, h a rfl]

/-- Helper: under the at-most-one-trailing-slash hypothesis, the base-URL
branch of `join_url` (pop one trailing slash) agrees with removing every
trailing slash. -/
theorem join_url_base_part (base_url : List Char)
    (hbase : base_url.reverse.take 2 ≠ ['/', '/']) :
    (if base_url.getLast? = some '/' then base_url.dropLast else base_url) =
      drop_trailing_slashes base_url := by
  rcases base_url.eq_nil_or_concat' with rfl | ⟨ys, c, rfl⟩
  · simp [drop_trailing_slashes]
  · rw [List.reverse_append] at hbase
    simp only [List.reverse_cons, List.reverse_nil, List.nil_append,
      List.singleton_append] at hbase
    by_cases hc : c = '/'
    · subst hc
      rw [if_pos (by simp)]
      unfold drop_trailing_slashes
      rw [List.reverse_append]
      simp only [List.reverse_cons, List.reverse_nil, List.nil_append,
        List.singleton_append, List.dropWhile_cons]
      rw [if_pos (by simp)]
      have hdrop : ys.reverse.dropWhile (fun ch => ch = '/') = ys.reverse := by
        apply dropWhile_head_false
        intro a ha
        cases hys : ys.reverse with
        | nil => rw [hys] at ha; simp at ha
        | cons b bs =>
            rw [hys] at ha
            simp only [List.head?_cons, Option.some.injEq] at ha
            subst ha
            rw [hys] at hbase
            simp only [List.take_succ_cons, List.take_zero] at hbase
            simp only [decide_eq_false_iff_not]
            intro heq
            subst heq
            exact hbase rfl
      rw [hdrop]
      simp
    · rw [if_neg (by simp [hc])]
      unfold drop_trailing_slashes
      rw [List.reverse_append]
      simp only [List.reverse_cons, List.reverse_nil, List.nil_append,
        List.singleton_append, List.dropWhile_cons]
      rw [if_neg (by simp [hc])]
      simp

/-- Helper: under the at-most-one-leading-slash hypothesis, the path
branch of `join_url` (push one slash when missing) produces exactly one
slash before the slash-stripped path. -/
theorem join_url_path_part (url path : List Char)
    (hpath : path.take 2 ≠ ['/', '/']) :
    (if ¬ path.head? = some '/' then url ++ ['/'] else url) ++ path =
      url ++ '/' :: drop_leading_slashes path := by
  cases path with
  | nil => simp [drop_leading_slashes]
  | cons c cs =>
      by_cases hc : c = '/'
      · subst hc
        rw [if_neg (by simp)]
        unfold drop_leading_slashes
        rw [List.dropWhile_cons, if_pos (by simp)]
        have hdrop : cs.dropWhile (fun ch => ch = '/') = cs := by
          apply dropWhile_head_false
          intro a ha
          cases hcs : cs with
          | nil => rw [hcs] at ha; simp at ha
          | cons b bs =>
              rw [hcs] at ha
              simp only [List.head?_cons, Option.some.injEq] at ha
              subst ha
              rw [hcs] at hpath
              simp only [List.take_succ_cons, List.take_zero] at hpath
              simp only [decide_eq_false_iff_not]
              intro heq
              subst heq
              exact hpath rfl
        rw [hdrop]
      · rw [if_pos (by simp [hc])]
        unfold drop_leading_slashes
        rw [List.dropWhile_cons, if_neg (by simp [hc])]
        simp

/-- Counterexample to C5 as stated: the claim quantifies over all pairs of
strings "regardless of leading/trailing slashes", but a base URL ending in
two slashes keeps one of them, producing a double slash at the junction:
`join_url "a//" "x"` is `"a//x"`, not `"a/x"`. -/
theorem join_url_counterexample :
    join_url ['a', '/', '/'] ['x'] ≠
      drop_trailing_slashes ['a', '/', '/'] ++ '/' :: drop_leading_slashes ['x'] := by
  decide

/-- C5 (amended): for every base with at most one trailing slash and
every path with at most one leading slash, `join_url` produces exactly one
slash between them — the result is the slash-trimmed base, one slash, and
the slash-trimmed path, whatever combination of a single trailing or
leading slash the inputs carry. -/
theorem join_url_single_slash (base_url path : List Char)
    (hbase : base_url.reverse.take 2 ≠ ['/', '/'])
    (hpath : path.take 2 ≠ ['/', '/']) :
    join_url base_url path =
      drop_trailing_slashes base_url ++ '/' :: drop_leading_slashes path := by
  simp only [join_url]
  rw [join_url_base_part base_url hbase]
  exact join_url_path_part _ path hpath

/-- Witness for C5 (amended), at the claim's own example: joining
`https://h/api/` with `/bot/x` yields `https://h/api/bot/x`. -/
theorem join_url_single_slash_witness :
    join_url "https://h/api/".toList "/bot/x".toList = "https://h/api/bot/x".toList :=
  (join_url_single_slash "https://h/api/".toList "/bot/x".toList
    (by decide) (by decide)).trans (by decide)

/-- Discriminator for the `GameFull` variant of a per-game record. -/
def GameEvent.is_game_full : GameEvent → Bool
  | GameEvent.GameFull _ => true
  | _ => false

/-- Matching relation between a per-game stream record and a reified
callback: the callback is the one for the record's variant, carries the
record's payload, and was handed the given shared `GameContext`. -/
def game_event_matches (game_context : GameContext) :
    GameEvent → GameCallback → Prop
  | GameEvent.GameState state, GameCallback.on_game_state context state2 =>
      context = game_context ∧ state2 = state
  | GameEvent.ChatLine chat_line, GameCallback.on_chat_line context chat_line2 =>
      context = game_context ∧ chat_line2 = chat_line
  | GameEvent.OpponentGone gone, GameCallback.on_opponent_gone context gone2 =>
      context = game_context ∧ gone2 = gone
  | _, _ => False

/-- Helper: a matched callback carries the shared context. -/
theorem game_event_matches_context {game_context : GameContext}
    {event : GameEvent} {callback : GameCallback}
    (h : game_event_matches game_context event callback) :
    callback.context = game_context := by
  cases event <;> cases callback <;>
    simp_all [game_event_matches, GameCallback.context]

/-- Helper: every callback produced under a pointwise-matched dispatch
carries the shared context. -/
theorem forall2_matches_context (game_context : GameContext) :
    ∀ {events : List GameEvent} {callbacks : List GameCallback},
      List.Forall₂ (game_event_matches game_context) events callbacks →
      ∀ callback ∈ callbacks, callback.context = game_context := by
  intro events callbacks h
  induction h with
  | nil => intro callback hmem; simp at hmem
  | cons hrel _ ih =>
      intro callback hmem
      rcases List.mem_cons.mp hmem with rfl | hmem2
      · exact game_event_matches_context hrel
      · exact ih callback hmem2

/-- Helper: when every record decodes and none is a `GameFull`, the
per-game loop body panics nowhere and produces one pointwise-matched
callback per record. -/
theorem dispatch_game_events_total {E : Type} (game_context : GameContext)
    (events : List GameEvent) (h : ∀ e ∈ events, e.is_game_full = false) :
    ∃ callbacks,
      dispatch_game_events game_context
        (events.map Except.ok : List (Except E GameEvent)) = some callbacks ∧
      List.Forall₂ (game_event_matches game_context) events callbacks := by
  induction events with
  | nil => exact ⟨[], rfl, List.Forall₂.nil⟩
  | cons e es ih =>
      obtain ⟨callbacks, hdispatch, hmatch⟩ :=
        ih (fun x hx => h x (List.mem_cons_of_mem _ hx))
      have he : e.is_game_full = false := h e (List.mem_cons_self _ _)
      cases e with
      | GameFull game_full => simp [GameEvent.is_game_full] at he
      | GameState state =>
          exact ⟨GameCallback.on_game_state game_context state :: callbacks,
            by simp [dispatch_game_events, process_game_event, hdispatch],
            List.Forall₂.cons ⟨rfl, rfl⟩ hmatch⟩
      | ChatLine chat_line =>
          exact ⟨GameCallback.on_chat_line game_context chat_line :: callbacks,
            by simp [dispatch_game_events, process_game_event, hdispatch],
            List.Forall₂.cons ⟨rfl, rfl⟩ hmatch⟩
      | OpponentGone gone =>
          exact ⟨GameCallback.on_opponent_gone game_context gone :: callbacks,
            by simp [dispatch_game_events, process_game_event, hdispatch],
            List.Forall₂.cons ⟨rfl, rfl⟩ hmatch⟩

/-- Helper: the per-game loop body aborts whenever any of its records
fails to decode or dispatches to the panicking branch. -/
theorem dispatch_game_events_none {E : Type} (game_context : GameContext)
    (records : List (Except E GameEvent)) (record : Except E GameEvent)
    (hmem : record ∈ records)
    (hbad : ∀ e, record = Except.ok e → process_game_event e game_context = none) :
    dispatch_game_events game_context records = none := by
  induction records with
  | nil => simp at hmem
  | cons r rs ih =>
      rcases List.mem_cons.mp hmem with rfl | hmem2
      · cases record with
        | error err => rfl
        | ok e => simp [dispatch_game_events, hbad e rfl]
      · cases r with
        | error err => rfl
        | ok e =>
            cases hp : process_game_event e game_context with
            | none => simp [dispatch_game_events, hp]
            | some callback => simp [dispatch_game_events, hp, ih hmem2]

/-- C1: for a per-game stream whose first record decodes to `GameFull`
followed by k further successfully-decoded (non-`GameFull`) records, the
loop invokes `on_game_state` with the `GameFull`'s embedded initial state
exactly once, at the head of the callback sequence, before any of the k
subsequent callbacks; exactly k further callbacks fire, the i-th matching
the i-th record's variant and payload; and every one of them carries the
one shared `GameContext`, whose game info is the `GameFull` payload's
info. -/
theorem run_with_game_event_stream_session {E : Type} (game_full : GameFullEvent)
    (rest : List GameEvent) (bot_id : UserId)
    (h : ∀ e ∈ rest, e.is_game_full = false) :
    ∃ callbacks,
      run_with_game_event_stream
        ((GameEvent.GameFull game_full :: rest).map Except.ok :
          List (Except E GameEvent)) bot_id =
        some (GameCallback.on_game_state
          { bot_id := bot_id, bot_color := color_of bot_id game_full.info,
            info := game_full.info } game_full.state :: callbacks) ∧
      callbacks.length = rest.length ∧
      List.Forall₂ (game_event_matches
        { bot_id := bot_id, bot_color := color_of bot_id game_full.info,
          info := game_full.info }) rest callbacks ∧
      ∀ callback ∈ callbacks,
        (GameCallback.context callback).info = game_full.info := by
  obtain ⟨callbacks, hdispatch, hmatch⟩ :=
    dispatch_game_events_total (E := E)
      { bot_id := bot_id, bot_color := color_of bot_id game_full.info,
        info := game_full.info } rest h
  refine ⟨callbacks, ?_, ?_, hmatch, ?_⟩
  · simp [run_with_game_event_stream, hdispatch]
  · exact hmatch.length_eq.symm
  · intro callback hmem
    rw [forall2_matches_context _ hmatch callback hmem]

/-- Witness for C1: a stream of a `GameFull` followed by one
`OpponentGone` record delivers the initial state first and then the
matched callback. -/
theorem run_with_game_event_stream_session_witness :
    ∃ callbacks,
      run_with_game_event_stream
        ((GameEvent.GameFull test_game_full ::
            [GameEvent.OpponentGone { gone := true, claim_win_in_seconds := some 30 }]).map
          Except.ok : List (Except String GameEvent)) "testId" =
        some (GameCallback.on_game_state
          { bot_id := "testId", bot_color := color_of "testId" test_game_full.info,
            info := test_game_full.info } test_game_full.state :: callbacks) ∧
      callbacks.length =
        [GameEvent.OpponentGone { gone := true, claim_win_in_seconds := some 30 }].length ∧
      List.Forall₂ (game_event_matches
        { bot_id := "testId", bot_color := color_of "testId" test_game_full.info,
          info := test_game_full.info })
        [GameEvent.OpponentGone { gone := true, claim_win_in_seconds := some 30 }]
        callbacks ∧
      ∀ callback ∈ callbacks,
        (GameCallback.context callback).info = test_game_full.info :=
  run_with_game_event_stream_session test_game_full
    [GameEvent.OpponentGone { gone := true, claim_win_in_seconds := some 30 }]
    "testId" (by decide)

/-- Matching relation between a top-level stream record and a reified
callback: the callback is the one for the record's variant, carries the
record's payload, and was handed the shared `BotContext`. -/
def bot_event_matches (bot_context : BotContext) : BotEvent → BotCallback → Prop
  | BotEvent.GameStart game, BotCallback.on_game_start context game2 =>
      context = bot_context ∧ game2 = game
  | BotEvent.GameFinish game, BotCallback.on_game_finish context game2 =>
      context = bot_context ∧ game2 = game
  | BotEvent.Challenge challenge, BotCallback.on_challenge context challenge2 =>
      context = bot_context ∧ challenge2 = challenge
  | BotEvent.ChallengeCanceled challenge,
      BotCallback.on_challenge_cancelled context challenge2 =>
      context = bot_context ∧ challenge2 = challenge
  | BotEvent.ChallengeDeclined challenge,
      BotCallback.on_challenge_declined context challenge2 =>
      context = bot_context ∧ challenge2 = challenge
  | _, _ => False

/-- Helper: each event matches the callback its dispatch produces. -/
theorem bot_event_matches_process (bot_context : BotContext) (event : BotEvent) :
    bot_event_matches bot_context event (process_bot_event event bot_context) := by
  cases event <;> exact ⟨rfl, rfl⟩

/-- Helper: the callback produced for an event delivers that event back. -/
theorem bot_callback_event_process (bot_context : BotContext) (event : BotEvent) :
    BotCallback.event (process_bot_event event bot_context) = event := by
  cases event <;> rfl

/-- Helper: on a fully-decoded stream, the top-level loop dispatches every
record in order. -/
theorem dispatch_bot_events_map {E : Type} (bot_context : BotContext)
    (events : List BotEvent) :
    dispatch_bot_events bot_context
      (events.map Except.ok : List (Except E BotEvent)) =
      some (events.map (fun e => process_bot_event e bot_context)) := by
  induction events with
  | nil => rfl
  | cons e es ih => simp [dispatch_bot_events, ih]

/-- C2: for every finite sequence of successfully-decoded top-level bot
events, the run loop delivers each event to exactly one matching `Bot`
callback (pointwise for the matching-variant relation), and the multiset
of delivered events equals the input multiset — an order-independent
statement, as execution order across spawned handlers is unspecified. -/
theorem run_with_event_stream_dispatch_complete (E : Type)
    (events : List BotEvent) (bot_id : UserId) :
    ∃ callbacks,
      run_with_event_stream (events.map Except.ok : List (Except E BotEvent))
        bot_id = some callbacks ∧
      List.Forall₂ (bot_event_matches { bot_id := bot_id }) events callbacks ∧
      (↑(callbacks.map BotCallback.event) : Multiset BotEvent) =
        (↑events : Multiset BotEvent) := by
  refine ⟨events.map (fun e => process_bot_event e { bot_id := bot_id }), ?_, ?_, ?_⟩
  · exact dispatch_bot_events_map { bot_id := bot_id } events
  · induction events with
    | nil => exact List.Forall₂.nil
    | cons e es ih =>
        exact List.Forall₂.cons (bot_event_matches_process _ e) ih
  · have hlist :
        (events.map (fun e => process_bot_event e { bot_id := bot_id })).map
          BotCallback.event = events := by
      rw [List.map_map]
      simp [Function.comp_def, bot_callback_event_process]
    rw [hlist]

/-- C6: a per-game stream whose first record is anything other than a
decoded `GameFull` (another variant, or a decode failure) hits the fatal
`panic!()` branch immediately; a `GameFull` appearing again later in the
stream aborts the loop through the panicking task; and conversely, when
the first record is a `GameFull`, no later record is a `GameFull`, and
every record decodes, the run completes — the panic branches are
unreachable. -/
theorem run_with_game_event_stream_protocol (E : Type) :
    (∀ (first : Except E GameEvent) (rest : List (Except E GameEvent))
        (bot_id : UserId),
      (∀ game_full, first ≠ Except.ok (GameEvent.GameFull game_full)) →
      run_with_game_event_stream (first :: rest) bot_id = none) ∧
    (∀ (game_full : GameFullEvent) (rest : List (Except E GameEvent))
        (bot_id : UserId) (record : Except E GameEvent)
        (game_full2 : GameFullEvent),
      record ∈ rest → record = Except.ok (GameEvent.GameFull game_full2) →
      run_with_game_event_stream
        (Except.ok (GameEvent.GameFull game_full) :: rest) bot_id = none) ∧
    (∀ (game_full : GameFullEvent) (rest : List GameEvent) (bot_id : UserId),
      (∀ e ∈ rest, e.is_game_full = false) →
      (run_with_game_event_stream
        ((GameEvent.GameFull game_full :: rest).map Except.ok :
          List (Except E GameEvent)) bot_id).isSome = true) := by
  refine ⟨?_, ?_, ?_⟩
  · intro first rest bot_id h
    cases first with
    | error err => rfl
    | ok e =>
        cases e with
        | GameFull game_full => exact absurd rfl (h game_full)
        | GameState state => rfl
        | ChatLine chat_line => rfl
        | OpponentGone gone => rfl
  · intro game_full rest bot_id record game_full2 hmem hrecord
    have hnone := dispatch_game_events_none
      { bot_id := bot_id, bot_color := color_of bot_id game_full.info,
        info := game_full.info } rest record hmem
      (by
        intro e he
        rw [hrecord] at he
        obtain rfl : GameEvent.GameFull game_full2 = e := by simpa using he
        rfl)
    simp [run_with_game_event_stream, hnone]
  · intro game_full rest bot_id h
    obtain ⟨callbacks, hdispatch, _⟩ :=
      dispatch_game_events_total (E := E)
        { bot_id := bot_id, bot_color := color_of bot_id game_full.info,
          info := game_full.info } rest h
    simp [run_with_game_event_stream, hdispatch]

/-- Witness for C6: a stream that opens with a `GameState` record instead
of `GameFull` is fatal. -/
theorem run_with_game_event_stream_protocol_witness :
    run_with_game_event_stream
      ([Except.ok (GameEvent.GameState test_game_state)] :
        List (Except String GameEvent)) "testId" = none :=
  (run_with_game_event_stream_protocol String).1
    (Except.ok (GameEvent.GameState test_game_state)) [] "testId"
    (fun game_full => by simp)

end Libot
